import Mathlib

/-!
Verification of the Tact compiler command-line front end (src/bin/tact.js).

The script parses flags into a structured invocation, validates flag
combinations in a fixed order, resolves a compilation mode, and dispatches
to the compiler backend, mapping the outcome to a process exit code.

External collaborators are modelled as explicit behaviour parameters:
the expression evaluator (one call per invocation, on the eval flag),
the git revision lookup (may throw), and the backend run entry point
(returns a tagged ok flag or throws).  Each observable action of the
script (writes to stdout and stderr, rendering help, calling the
evaluator or the backend) is recorded as an event; the process
termination is the exit kind.
-/

namespace TactCli

/-- The parsed flags object produced by the argument parser, one field per
declared flag of the schema in src/bin/tact.js. -/
structure Flags where
  config : Option String
  projects : List String
  quiet : Bool
  withDecompilation : Bool
  func : Bool
  check : Bool
  eval : Option String
  version : Bool
  help : Bool
  deriving Repr, DecidableEq

/-- The parsed command line: flags plus the positional input list. -/
structure Cli where
  flags : Flags
  input : List String
  deriving Repr, DecidableEq

/-- Tagged result of the expression evaluator entry point
(parseAndEvalExpression): kind ok with a value, or a failure kind
with a message.  The printed value is modelled as a string. -/
inductive EvalResult where
  | ok (value : String)
  | failure (message : String)
  deriving Repr, DecidableEq

/-- Behaviour of the single evaluator call of an invocation: it either
returns a tagged result or throws an exception. -/
inductive EvalCall where
  | returns (r : EvalResult)
  | throws (err : String)
  deriving Repr, DecidableEq

/-- Behaviour of the git revision lookup (execFileSync): raw captured
output, or a thrown error. -/
inductive GitCall where
  | returns (out : String)
  | throws
  deriving Repr, DecidableEq

/-- Behaviour of the single backend run call of an invocation: a response
carrying the ok flag, or a thrown exception. -/
inductive RunCall where
  | returns (ok : Bool)
  | throws (err : String)
  deriving Repr, DecidableEq

/-- The request object handed to the backend run entry point. -/
structure ExecutionRequest where
  fileName : Option String
  configPath : Option String
  projectNames : List String
  mode : Option String
  suppressLog : Bool
  deriving Repr, DecidableEq

/-- Observable actions of the script, in order of occurrence. -/
inductive Event where
  | stdout (s : String)
  | stderr (s : String)
  | helpShown
  | evalCalled (expr : String)
  | backendCalled (req : ExecutionRequest)
  deriving Repr, DecidableEq

/-- How the process terminates: an explicit exit code (process.exit or
showHelp with code 0), or showHelp with the help library default code. -/
inductive ExitKind where
  | code (n : Nat)
  | helpDefault
  deriving Repr, DecidableEq

/-- Full observable outcome of one invocation. -/
structure Outcome where
  events : List Event
  exit : ExitKind
  deriving Repr, DecidableEq

/-- Message of the config-and-file conflict check (line 116). -/
def bothConfigAndFileMsg : String :=
  "Both config and Tact file can\x27t be simultaneously specified, pick one!"

/-- Message of the mode-flag mutual-exclusivity check (line 126). -/
def mutuallyExclusiveMsg : String :=
  "Flags --with-decompilation, --func and --check are mutually exclusive!"

/-- Message of the no-config-no-file check (line 130). -/
def eitherConfigOrFileMsg : String :=
  "Either config or Tact file have to be specified!"

/-- Message of the one-file arity check (line 134). -/
def onlyOneFileMsg : String :=
  "Only one Tact file can be specified at a time. If you want more, provide a config!"

/-- isEmptyConfigAndInput from src/bin/tact.js lines 71-73: config is
undefined and the input list is empty. -/
def isEmptyConfigAndInput (cli : Cli) : Bool :=
  cli.flags.config == none && cli.input.length == 0

/-- The array of compilation-mode flags built at lines 119-123. -/
def compilationModeFlags (f : Flags) : List Bool :=
  [f.check, f.func, f.withDecompilation]

/-- numOfCompilationModeFlagsSet from line 124: how many mode flags hold. -/
def numOfCompilationModeFlagsSet (f : Flags) : Nat :=
  ((compilationModeFlags f).filter (fun flag => flag)).length

/-- The mode ternary chain at lines 141-147. -/
def resolvedMode (f : Flags) : Option String :=
  if f.check then some "checkOnly"
  else if f.func then some "funcOnly"
  else if f.withDecompilation then some "fullWithDecompilation"
  else none

/-- JavaScript truthiness of the string-typed eval flag at line 100: an
absent flag and the empty string are both falsy. -/
def evalTruthy : Option String → Bool
  | some e => e != ""
  | none => false

/-- showErrorAndExit from lines 75-78: print the error line to stderr,
then render help via the help library, which terminates the process with
its default exit code. -/
def showErrorAndExit (message : String) (pre : List Event) : Outcome :=
  { events := pre ++ [Event.stderr ("Error: " ++ message), Event.helpShown],
    exit := ExitKind.helpDefault }

/-- The request object built at lines 150-156: first positional input as
the file name, the config path, the project list, the resolved mode, and
the quiet flag. -/
def requestOf (cli : Cli) : ExecutionRequest :=
  { fileName := cli.input.head?
    configPath := cli.flags.config
    projectNames := cli.flags.projects
    mode := resolvedMode cli.flags
    suppressLog := cli.flags.quiet }

/-- Lines 115-161 of run: the four validation checks, the bare-invocation
help, and the backend dispatch with its exit-code mapping.  The argument
pre carries the events already emitted by the eval branch. -/
def validateAndRun (cli : Cli) (bk : RunCall) (pre : List Event) : Outcome :=
  if cli.flags.config ≠ none ∧ cli.input.length > 0 then
    showErrorAndExit bothConfigAndFileMsg pre
  else if numOfCompilationModeFlagsSet cli.flags > 1 then
    showErrorAndExit mutuallyExclusiveMsg pre
  else if isEmptyConfigAndInput cli ∧ numOfCompilationModeFlagsSet cli.flags > 0 then
    showErrorAndExit eitherConfigOrFileMsg pre
  else if cli.input.length > 1 then
    showErrorAndExit onlyOneFileMsg pre
  else if isEmptyConfigAndInput cli ∧ numOfCompilationModeFlagsSet cli.flags = 0
      ∧ cli.flags.projects.length = 0 then
    { events := pre ++ [Event.helpShown], exit := ExitKind.code 0 }
  else
    match bk with
    | RunCall.returns ok =>
      { events := pre ++ [Event.backendCalled (requestOf cli)],
        exit := ExitKind.code (if ok then 0 else 30) }
    | RunCall.throws e =>
      { events := pre ++ [Event.backendCalled (requestOf cli),
          Event.stderr ("Execution error: " ++ e)],
        exit := ExitKind.code 1 }

/-- The run entry point of src/bin/tact.js (lines 80-162), as a function
of the parsed invocation, the package version string, and the behaviours
of the evaluator, the git lookup, and the backend. -/
def run (version : String) (cli : Cli) (ev : EvalCall) (git : GitCall)
    (bk : RunCall) : Outcome :=
  if cli.flags.help then
    { events := [Event.helpShown], exit := ExitKind.code 0 }
  else if cli.flags.version then
    match git with
    | GitCall.returns out =>
      { events := [Event.stdout version, Event.stdout ("git commit: " ++ out.trim)],
        exit := ExitKind.code 0 }
    | GitCall.throws =>
      { events := [Event.stdout version], exit := ExitKind.code 0 }
  else if evalTruthy cli.flags.eval then
    match ev with
    | EvalCall.returns (EvalResult.ok v) =>
      validateAndRun cli bk [Event.evalCalled (cli.flags.eval.getD ""), Event.stdout v]
    | EvalCall.returns (EvalResult.failure m) =>
      { events := [Event.evalCalled (cli.flags.eval.getD ""), Event.stderr m],
        exit := ExitKind.code 30 }
    | EvalCall.throws e =>
      { events := [Event.evalCalled (cli.flags.eval.getD ""),
          Event.stderr ("Evaluation error: " ++ e)],
        exit := ExitKind.code 1 }
  else
    validateAndRun cli bk []

/-- Flags with every field at its parser default: no config, no projects,
no mode flag, no eval, and help and version unset. -/
def defaultFlags : Flags :=
  { config := none, projects := [], quiet := false, withDecompilation := false,
    func := false, check := false, eval := none, version := false, help := false }

/-- C2: with the help flag set, whatever the other flags, the input list,
and the collaborator behaviours, the outcome is exactly one help rendering
and exit code 0: no version print, no evaluator call, no validation
message, no backend call. -/
theorem help_absolute_precedence (version : String) (cli : Cli) (ev : EvalCall)
    (git : GitCall) (bk : RunCall) (hh : cli.flags.help = true) :
    run version cli ev git bk
      = { events := [Event.helpShown], exit := ExitKind.code 0 } := by
  simp [run, hh]

/-- Witness for C2 at a fully loaded invocation: every other flag set and
two positional files, throwing collaborators. -/
theorem help_absolute_precedence_witness :
    run "1.0.0"
      { flags := { config := some "cfg.json", projects := ["p"], quiet := true,
                   withDecompilation := true, func := true, check := true,
                   eval := some "1+1", version := true, help := true },
        input := ["a.tact", "b.tact"] }
      (EvalCall.throws "boom") GitCall.throws (RunCall.throws "crash")
      = { events := [Event.helpShown], exit := ExitKind.code 0 } :=
  help_absolute_precedence "1.0.0" _ _ _ _ rfl

/-- C3: with the version flag set and help unset, the version is printed
and the process exits with code 0 on every outcome of the git revision
lookup, and neither the evaluator nor any validation path nor the backend
call is reached. -/
theorem version_always_exits_zero (version : String) (cli : Cli) (ev : EvalCall)
    (git : GitCall) (bk : RunCall) (hh : cli.flags.help = false)
    (hv : cli.flags.version = true) :
    (run version cli ev git bk).exit = ExitKind.code 0 ∧
    Event.stdout version ∈ (run version cli ev git bk).events ∧
    (∀ e, Event.evalCalled e ∉ (run version cli ev git bk).events) ∧
    (∀ req, Event.backendCalled req ∉ (run version cli ev git bk).events) ∧
    Event.helpShown ∉ (run version cli ev git bk).events := by
  cases git <;> simp [run, hh, hv]

/-- Witness for C3 with a throwing git lookup and pending eval and mode
flags that are never reached. -/
theorem version_always_exits_zero_witness :
    (run "1.0.0"
      { flags := { config := none, projects := [], quiet := false,
                   withDecompilation := false, func := false, check := true,
                   eval := some "1+1", version := true, help := false },
        input := [] }
      (EvalCall.throws "boom") GitCall.throws (RunCall.returns false)).exit
      = ExitKind.code 0 :=
  (version_always_exits_zero "1.0.0" _ (EvalCall.throws "boom") GitCall.throws
    (RunCall.returns false) rfl rfl).1

/-- C4: in the eval branch (help and version unset, eval truthy), a tagged
failure result prints its message to stderr and exits with code 30, and a
thrown evaluator exception prints a message starting with the evaluation
error marker to stderr and exits with code 1. -/
theorem eval_failure_and_throw_exit_codes (version : String) (cli : Cli)
    (git : GitCall) (bk : RunCall) (hh : cli.flags.help = false)
    (hv : cli.flags.version = false) (he : evalTruthy cli.flags.eval = true) :
    (∀ m,
      (run version cli (EvalCall.returns (EvalResult.failure m)) git bk).exit
          = ExitKind.code 30 ∧
      Event.stderr m
        ∈ (run version cli (EvalCall.returns (EvalResult.failure m)) git bk).events) ∧
    (∀ e,
      (run version cli (EvalCall.throws e) git bk).exit = ExitKind.code 1 ∧
      Event.stderr ("Evaluation error: " ++ e)
        ∈ (run version cli (EvalCall.throws e) git bk).events) := by
  constructor
  · intro m
    simp [run, hh, hv, he]
  · intro e
    simp [run, hh, hv, he]

/-- Witness for C4 at the spec example: eval of a division by zero whose
tagged failure message is printed and mapped to exit code 30. -/
theorem eval_failure_and_throw_exit_codes_witness :
    (run "1.0.0"
      { flags := { defaultFlags with eval := some "1/0" }, input := [] }
      (EvalCall.returns (EvalResult.failure "division by zero"))
      GitCall.throws (RunCall.returns true)).exit = ExitKind.code 30 :=
  ((eval_failure_and_throw_exit_codes "1.0.0"
      { flags := { defaultFlags with eval := some "1/0" }, input := [] }
      GitCall.throws (RunCall.returns true) rfl rfl rfl).1 "division by zero").1

/-- Helper: when help and version are unset and the eval branch does not
terminate (eval falsy, or the evaluator returns a tagged ok), run reduces
to the validation chain, with an event prefix that is either empty or an
evaluator call followed by a stdout line. -/
theorem run_reaches_validation (version : String) (cli : Cli) (ev : EvalCall)
    (git : GitCall) (bk : RunCall) (hh : cli.flags.help = false)
    (hv : cli.flags.version = false)
    (he : evalTruthy cli.flags.eval = false
      ∨ ∃ v, ev = EvalCall.returns (EvalResult.ok v)) :
    ∃ pre, run version cli ev git bk = validateAndRun cli bk pre ∧
      (pre = [] ∨ ∃ e v, pre = [Event.evalCalled e, Event.stdout v]) := by
  rcases he with he | ⟨v, rfl⟩
  · exact ⟨[], by simp only [run, hh, hv, he, Bool.false_eq_true, if_false], Or.inl rfl⟩
  · by_cases ht : evalTruthy cli.flags.eval
    · refine ⟨[Event.evalCalled (cli.flags.eval.getD ""), Event.stdout v], ?_,
        Or.inr ⟨_, _, rfl⟩⟩
      simp only [run, hh, hv, ht, Bool.false_eq_true, if_false, if_true]
    · exact ⟨[], by simp only [run, hh, hv, ht, Bool.false_eq_true, if_false], Or.inl rfl⟩

/-- Helper: under the negation of every validation condition, the
validation chain dispatches to the backend. -/
theorem validateAndRun_dispatch (cli : Cli) (bk : RunCall) (pre : List Event)
    (h1 : ¬ (cli.flags.config ≠ none ∧ cli.input.length > 0))
    (h2 : ¬ numOfCompilationModeFlagsSet cli.flags > 1)
    (h3 : ¬ (isEmptyConfigAndInput cli ∧ numOfCompilationModeFlagsSet cli.flags > 0))
    (h4 : ¬ cli.input.length > 1)
    (h5 : ¬ (isEmptyConfigAndInput cli ∧ numOfCompilationModeFlagsSet cli.flags = 0
      ∧ cli.flags.projects.length = 0)) :
    validateAndRun cli bk pre =
      match bk with
      | RunCall.returns ok =>
        { events := pre ++ [Event.backendCalled (requestOf cli)],
          exit := ExitKind.code (if ok then 0 else 30) }
      | RunCall.throws e =>
        { events := pre ++ [Event.backendCalled (requestOf cli),
            Event.stderr ("Execution error: " ++ e)],
          exit := ExitKind.code 1 } := by
  unfold validateAndRun
  rw [if_neg h1, if_neg h2, if_neg h3, if_neg h4, if_neg h5]

/-- C1: on a well-formed build invocation (help and version unset, eval
branch non-terminating, every validation check passed), a backend
response with ok true exits with code 0, ok false exits with code 30,
and a thrown exception exits with code 1 after a stderr line starting
with the execution error marker. -/
theorem backend_exit_code_mapping (version : String) (cli : Cli) (ev : EvalCall)
    (git : GitCall) (bk : RunCall) (hh : cli.flags.help = false)
    (hv : cli.flags.version = false)
    (he : evalTruthy cli.flags.eval = false
      ∨ ∃ v, ev = EvalCall.returns (EvalResult.ok v))
    (h1 : ¬ (cli.flags.config ≠ none ∧ cli.input.length > 0))
    (h2 : ¬ numOfCompilationModeFlagsSet cli.flags > 1)
    (h3 : ¬ (isEmptyConfigAndInput cli ∧ numOfCompilationModeFlagsSet cli.flags > 0))
    (h4 : ¬ cli.input.length > 1)
    (h5 : ¬ (isEmptyConfigAndInput cli ∧ numOfCompilationModeFlagsSet cli.flags = 0
      ∧ cli.flags.projects.length = 0)) :
    (bk = RunCall.returns true → (run version cli ev git bk).exit = ExitKind.code 0) ∧
    (bk = RunCall.returns false → (run version cli ev git bk).exit = ExitKind.code 30) ∧
    (∀ e, bk = RunCall.throws e →
      (run version cli ev git bk).exit = ExitKind.code 1 ∧
      Event.stderr ("Execution error: " ++ e) ∈ (run version cli ev git bk).events) := by
  obtain ⟨pre, hrun, -⟩ :=
    run_reaches_validation version cli ev git bk hh hv he
  rw [hrun, validateAndRun_dispatch cli bk pre h1 h2 h3 h4 h5]
  refine ⟨?_, ?_, ?_⟩
  · rintro rfl; rfl
  · rintro rfl; rfl
  · rintro e rfl
    exact ⟨rfl, by simp⟩

/-- Witness for C1: a single-file build invocation with a backend that
returns ok true exits with code 0. -/
theorem backend_exit_code_mapping_witness :
    (run "1.0.0" { flags := defaultFlags, input := ["main.tact"] }
      (EvalCall.throws "unused") GitCall.throws (RunCall.returns true)).exit
      = ExitKind.code 0 :=
  (backend_exit_code_mapping "1.0.0"
    { flags := defaultFlags, input := ["main.tact"] }
    (EvalCall.throws "unused") GitCall.throws (RunCall.returns true)
    rfl rfl (Or.inl rfl) (by simp [defaultFlags])
    (by simp [numOfCompilationModeFlagsSet, compilationModeFlags, defaultFlags])
    (by simp [isEmptyConfigAndInput, defaultFlags])
    (by simp)
    (by simp [isEmptyConfigAndInput, defaultFlags])).1 rfl

/-- C5: with help and version unset and a non-terminating eval branch,
an invocation carrying both a config and a positional file is rejected
with the config-and-file message and a help rendering; the
mutual-exclusivity check and the backend call are never reached. -/
theorem config_and_file_rejected (version : String) (cli : Cli) (ev : EvalCall)
    (git : GitCall) (bk : RunCall) (hh : cli.flags.help = false)
    (hv : cli.flags.version = false)
    (he : evalTruthy cli.flags.eval = false
      ∨ ∃ v, ev = EvalCall.returns (EvalResult.ok v))
    (hc : cli.flags.config ≠ none) (hi : cli.input.length > 0) :
    (run version cli ev git bk).exit = ExitKind.helpDefault ∧
    Event.stderr ("Error: " ++ bothConfigAndFileMsg) ∈ (run version cli ev git bk).events ∧
    Event.helpShown ∈ (run version cli ev git bk).events ∧
    Event.stderr ("Error: " ++ mutuallyExclusiveMsg) ∉ (run version cli ev git bk).events ∧
    (∀ req, Event.backendCalled req ∉ (run version cli ev git bk).events) := by
  obtain ⟨pre, hrun, hpre⟩ := run_reaches_validation version cli ev git bk hh hv he
  rw [hrun]
  unfold validateAndRun
  rw [if_pos ⟨hc, hi⟩]
  unfold showErrorAndExit
  refine ⟨rfl, by simp, by simp, ?_, ?_⟩
  · rcases hpre with rfl | ⟨e, v, rfl⟩ <;> simp <;> decide
  · intro req
    rcases hpre with rfl | ⟨e, v, rfl⟩ <;> simp

/-- Witness for C5 at the spec example: config cfg.json together with a
positional file is rejected with the config-and-file error line. -/
theorem config_and_file_rejected_witness :
    Event.stderr ("Error: " ++ bothConfigAndFileMsg)
      ∈ (run "1.0.0"
          { flags := { defaultFlags with config := some "cfg.json" },
            input := ["file.tact"] }
          (EvalCall.throws "unused") GitCall.throws (RunCall.returns true)).events :=
  (config_and_file_rejected "1.0.0"
    { flags := { defaultFlags with config := some "cfg.json" },
      input := ["file.tact"] }
    (EvalCall.throws "unused") GitCall.throws (RunCall.returns true)
    rfl rfl (Or.inl rfl) (by simp [defaultFlags]) (by simp)).2.1

/-- C6: with help and version unset, a non-terminating eval branch and
the config-and-file check passed, an invocation with two or more of the
mode flags check, func, withDecompilation is rejected with the
mutual-exclusivity message, even when the later no-config-no-file and
one-file-arity invalidities are also present: their messages are never
emitted and the backend is never called. -/
theorem mutually_exclusive_rejected (version : String) (cli : Cli) (ev : EvalCall)
    (git : GitCall) (bk : RunCall) (hh : cli.flags.help = false)
    (hv : cli.flags.version = false)
    (he : evalTruthy cli.flags.eval = false
      ∨ ∃ v, ev = EvalCall.returns (EvalResult.ok v))
    (h1 : ¬ (cli.flags.config ≠ none ∧ cli.input.length > 0))
    (hm : numOfCompilationModeFlagsSet cli.flags > 1) :
    (run version cli ev git bk).exit = ExitKind.helpDefault ∧
    Event.stderr ("Error: " ++ mutuallyExclusiveMsg) ∈ (run version cli ev git bk).events ∧
    Event.helpShown ∈ (run version cli ev git bk).events ∧
    Event.stderr ("Error: " ++ eitherConfigOrFileMsg) ∉ (run version cli ev git bk).events ∧
    Event.stderr ("Error: " ++ onlyOneFileMsg) ∉ (run version cli ev git bk).events ∧
    (∀ req, Event.backendCalled req ∉ (run version cli ev git bk).events) := by
  obtain ⟨pre, hrun, hpre⟩ := run_reaches_validation version cli ev git bk hh hv he
  rw [hrun]
  unfold validateAndRun
  rw [if_neg h1, if_pos hm]
  unfold showErrorAndExit
  refine ⟨rfl, by simp, by simp, ?_, ?_, ?_⟩
  · rcases hpre with rfl | ⟨e, v, rfl⟩ <;> simp <;> decide
  · rcases hpre with rfl | ⟨e, v, rfl⟩ <;> simp <;> decide
  · intro req
    rcases hpre with rfl | ⟨e, v, rfl⟩ <;> simp

/-- Witness for C6: check and func together, with no config and two
positional files (a later arity invalidity also present), still draw the
mutual-exclusivity error line. -/
theorem mutually_exclusive_rejected_witness :
    Event.stderr ("Error: " ++ mutuallyExclusiveMsg)
      ∈ (run "1.0.0"
          { flags := { defaultFlags with check := true, func := true },
            input := ["a.tact", "b.tact"] }
          (EvalCall.throws "unused") GitCall.throws (RunCall.returns true)).events :=
  (mutually_exclusive_rejected "1.0.0"
    { flags := { defaultFlags with check := true, func := true },
      input := ["a.tact", "b.tact"] }
    (EvalCall.throws "unused") GitCall.throws (RunCall.returns true)
    rfl rfl (Or.inl rfl) (by simp [defaultFlags])
    (by simp [numOfCompilationModeFlagsSet, compilationModeFlags, defaultFlags])).2.1

/-- C7: with help and version unset, a non-terminating eval branch,
exactly one mode flag set, no config and no positional input, the
invocation is rejected with the no-config-no-file message and the
backend is never called. -/
theorem either_config_or_file_rejected (version : String) (cli : Cli) (ev : EvalCall)
    (git : GitCall) (bk : RunCall) (hh : cli.flags.help = false)
    (hv : cli.flags.version = false)
    (he : evalTruthy cli.flags.eval = false
      ∨ ∃ v, ev = EvalCall.returns (EvalResult.ok v))
    (hm : numOfCompilationModeFlagsSet cli.flags = 1)
    (hc : cli.flags.config = none) (hi : cli.input = []) :
    (run version cli ev git bk).exit = ExitKind.helpDefault ∧
    Event.stderr ("Error: " ++ eitherConfigOrFileMsg) ∈ (run version cli ev git bk).events ∧
    Event.helpShown ∈ (run version cli ev git bk).events ∧
    (∀ req, Event.backendCalled req ∉ (run version cli ev git bk).events) := by
  obtain ⟨pre, hrun, hpre⟩ := run_reaches_validation version cli ev git bk hh hv he
  rw [hrun]
  unfold validateAndRun
  rw [if_neg (by simp [hc]), if_neg (by simp [hm]),
    if_pos ⟨by simp [isEmptyConfigAndInput, hc, hi], by simp [hm]⟩]
  unfold showErrorAndExit
  refine ⟨rfl, by simp, by simp, ?_⟩
  intro req
  rcases hpre with rfl | ⟨e, v, rfl⟩ <;> simp

/-- Witness for C7 at the spec example: check alone with no config and no
file draws the no-config-no-file error line. -/
theorem either_config_or_file_rejected_witness :
    Event.stderr ("Error: " ++ eitherConfigOrFileMsg)
      ∈ (run "1.0.0" { flags := { defaultFlags with check := true }, input := [] }
          (EvalCall.throws "unused") GitCall.throws (RunCall.returns true)).events :=
  (either_config_or_file_rejected "1.0.0"
    { flags := { defaultFlags with check := true }, input := [] }
    (EvalCall.throws "unused") GitCall.throws (RunCall.returns true)
    rfl rfl (Or.inl rfl)
    (by simp [numOfCompilationModeFlagsSet, compilationModeFlags, defaultFlags])
    rfl rfl).2.1

/-- An invocation with two positional files AND a config: the input list
has more than one element, yet the config-and-file check fires first. -/
def twoFilesWithConfigCli : Cli :=
  { flags := { defaultFlags with config := some "cfg.json" },
    input := ["a.tact", "b.tact"] }

/-- C8 counterexample: an invocation whose positional input list has two
elements but whose rejection message is the config-and-file line, not the
one-file-arity line — so the arity rejection is NOT independent of the
other flags. -/
theorem only_one_file_not_flag_independent :
    twoFilesWithConfigCli.input.length > 1 ∧
    Event.stderr ("Error: " ++ onlyOneFileMsg)
      ∉ (run "1.0.0" twoFilesWithConfigCli (EvalCall.throws "unused")
          GitCall.throws (RunCall.returns true)).events ∧
    Event.stderr ("Error: " ++ bothConfigAndFileMsg)
      ∈ (run "1.0.0" twoFilesWithConfigCli (EvalCall.throws "unused")
          GitCall.throws (RunCall.returns true)).events := by
  decide

/-- C8 amended: an invocation whose positional input list has more than
one element is rejected with the one-file-arity message provided no
earlier check fires: help and version unset, eval branch non-terminating,
not both config and file given, and at most one mode flag set. -/
theorem only_one_file_rejected (version : String) (cli : Cli) (ev : EvalCall)
    (git : GitCall) (bk : RunCall) (hh : cli.flags.help = false)
    (hv : cli.flags.version = false)
    (he : evalTruthy cli.flags.eval = false
      ∨ ∃ v, ev = EvalCall.returns (EvalResult.ok v))
    (h1 : ¬ (cli.flags.config ≠ none ∧ cli.input.length > 0))
    (h2 : ¬ numOfCompilationModeFlagsSet cli.flags > 1)
    (hi : cli.input.length > 1) :
    (run version cli ev git bk).exit = ExitKind.helpDefault ∧
    Event.stderr ("Error: " ++ onlyOneFileMsg) ∈ (run version cli ev git bk).events ∧
    Event.helpShown ∈ (run version cli ev git bk).events ∧
    (∀ req, Event.backendCalled req ∉ (run version cli ev git bk).events) := by
  obtain ⟨pre, hrun, hpre⟩ := run_reaches_validation version cli ev git bk hh hv he
  rw [hrun]
  unfold validateAndRun
  rw [if_neg h1, if_neg h2,
    if_neg (by
      rintro ⟨hemp, -⟩
      simp only [isEmptyConfigAndInput, Bool.and_eq_true, beq_iff_eq] at hemp
      have h0 := hemp.2
      omega),
    if_pos hi]
  unfold showErrorAndExit
  refine ⟨rfl, by simp, by simp, ?_⟩
  intro req
  rcases hpre with rfl | ⟨e, v, rfl⟩ <;> simp

/-- Witness for the amended C8: two positional files with no config and
no mode flags draw the one-file-arity error line. -/
theorem only_one_file_rejected_witness :
    Event.stderr ("Error: " ++ onlyOneFileMsg)
      ∈ (run "1.0.0" { flags := defaultFlags, input := ["a.tact", "b.tact"] }
          (EvalCall.throws "unused") GitCall.throws (RunCall.returns true)).events :=
  (only_one_file_rejected "1.0.0"
    { flags := defaultFlags, input := ["a.tact", "b.tact"] }
    (EvalCall.throws "unused") GitCall.throws (RunCall.returns true)
    rfl rfl (Or.inl rfl) (by simp [defaultFlags])
    (by simp [numOfCompilationModeFlagsSet, compilationModeFlags, defaultFlags])
    (by simp)).2.1

/-- The spec example invocation carrying only eval of the expression 1+1. -/
def evalOnlyCli : Cli :=
  { flags := { defaultFlags with eval := some "1+1" }, input := [] }

/-- C9: on the invocation carrying only eval of 1+1, when the evaluator
returns a tagged ok with value 2, the value 2 is printed to stdout, the
eval branch does not terminate the process, the remaining checks all pass
down to the bare-invocation branch, and the process exits with code 0
(rendering help on the way out); the backend is never called. -/
theorem eval_success_continues_to_exit_zero (version : String) (git : GitCall)
    (bk : RunCall) :
    run version evalOnlyCli (EvalCall.returns (EvalResult.ok "2")) git bk
      = { events := [Event.evalCalled "1+1", Event.stdout "2", Event.helpShown],
          exit := ExitKind.code 0 } := by
  simp [run, evalOnlyCli, defaultFlags, evalTruthy, validateAndRun,
    isEmptyConfigAndInput, numOfCompilationModeFlagsSet, compilationModeFlags]

/-- Helper: swapping the eval field of the flags never changes the
validation chain, which reads every field but eval. -/
theorem validateAndRun_eval_irrelevant (cli : Cli) (x : Option String)
    (bk : RunCall) (pre : List Event) :
    validateAndRun { cli with flags := { cli.flags with eval := x } } bk pre
      = validateAndRun cli bk pre := rfl

/-- Helper: the validation chain never emits an evaluator-call event. -/
theorem validateAndRun_no_evalCalled (cli : Cli) (bk : RunCall) (e : String) :
    Event.evalCalled e ∉ (validateAndRun cli bk []).events := by
  cases bk <;> (unfold validateAndRun; split_ifs <;> simp [showErrorAndExit])

/-- C10: an invocation whose eval flag is present but equal to the empty
string behaves exactly as if eval were absent — the evaluator is never
invoked and processing falls through to the validation checks and the
build path. -/
theorem empty_eval_ignored (version : String) (cli : Cli) (ev : EvalCall)
    (git : GitCall) (bk : RunCall) (he : cli.flags.eval = some "") :
    run version cli ev git bk
      = run version { cli with flags := { cli.flags with eval := none } } ev git bk ∧
    (∀ e, Event.evalCalled e ∉ (run version cli ev git bk).events) := by
  have ht : evalTruthy cli.flags.eval = false := by simp [he, evalTruthy]
  have lhs : cli.flags.help = false → cli.flags.version = false →
      run version cli ev git bk = validateAndRun cli bk [] := by
    intro hb hvb
    simp only [run, hb, hvb, ht, Bool.false_eq_true, if_false]
  constructor
  · cases hb : cli.flags.help with
    | true => simp [run, hb]
    | false =>
      cases hvb : cli.flags.version with
      | true => cases git <;> simp [run, hb, hvb]
      | false =>
        have rhs : run version
            { cli with flags := { cli.flags with eval := none } } ev git bk
            = validateAndRun { cli with flags := { cli.flags with eval := none } } bk [] := by
          simp only [run]
          rw [if_neg (by simp [hb]), if_neg (by simp [hvb]),
            if_neg (by simp [evalTruthy])]
        rw [lhs hb hvb, rhs]
        exact (validateAndRun_eval_irrelevant cli none bk []).symm
  · intro e
    cases hb : cli.flags.help with
    | true => simp [run, hb]
    | false =>
      cases hvb : cli.flags.version with
      | true => cases git <;> simp [run, hb, hvb]
      | false =>
        rw [lhs hb hvb]
        exact validateAndRun_no_evalCalled cli bk e

/-- Witness for C10: eval present as the empty string on a one-file build
gives the same outcome as the same invocation without eval. -/
theorem empty_eval_ignored_witness :
    run "1.0.0" { flags := { defaultFlags with eval := some "" },
                  input := ["a.tact"] }
        (EvalCall.throws "boom") GitCall.throws (RunCall.returns true)
      = run "1.0.0" { flags := defaultFlags, input := ["a.tact"] }
        (EvalCall.throws "boom") GitCall.throws (RunCall.returns true) :=
  (empty_eval_ignored "1.0.0"
    { flags := { defaultFlags with eval := some "" }, input := ["a.tact"] }
    (EvalCall.throws "boom") GitCall.throws (RunCall.returns true) rfl).1

end TactCli
